import Mathlib

/-!
Shallow embedding of the word-game feedback backend (`app.py`).

The repository's core is a Flask route `get_ai_feedback` that parses a JSON
request, loads round metadata from `static/data/easy_mode.json`, and branches
between two feedback strategies (`generate_word_hints_text` when some required
words are still missing, `analyze_user_sentence_text` when all were found).
Both strategies call `call_gemini_api`, which wraps an outbound HTTPS call to
the Gemini generateContent endpoint and converts every failure into a
human-readable fallback string.

Modelling choices:
  * Python exceptions are modelled with `Except PyExc`; a `try/except` block
    becomes a `match` whose handler arms mirror the `except` clauses in order
    (`requests.exceptions.HTTPError` is a subclass of
    `requests.exceptions.RequestException`, which is a subclass of
    `Exception`; the class-test predicates below encode that hierarchy).
  * The outside world is an explicit environment: the configured credential
    (`os.getenv("GEMINI_API_KEY")`), the behaviour of the network (a function
    from the request's prompt and system instruction to an outcome), and the
    state of the metadata file.
  * Python `str.strip` / `str.join` are modelled by `pyStrip` / `pyJoin`.
  * Ghost observability fields (`aiCalls`, `netCalls`, `strategy`) record how
    many client invocations / outbound HTTP attempts happened and which
    strategy ran; they alter no behaviour.
-/

namespace WordGame

/-- Model of Python `sep.join(xs)`: the separator is inserted strictly between
consecutive elements, never for an empty or singleton list. -/
def pyJoin (sep : String) : List String → String
  | [] => ""
  | [x] => x
  | x :: y :: xs => x ++ sep ++ pyJoin sep (y :: xs)

/-- Model of Python `s.strip()`: drop whitespace from both ends.
(Lean's `Char.isWhitespace` covers space, tab, CR, LF; Python strips a few
more exotic Unicode spaces, which never occur in this repository's data.) -/
def pyStrip (s : String) : String :=
  ⟨((s.data.dropWhile Char.isWhitespace).reverse.dropWhile Char.isWhitespace).reverse⟩

/-- Truthiness of a Python string: `bool(s)` is `False` exactly for `""`. -/
def pyTruthy (s : String) : Bool := s ≠ ""

/-! ### The Gemini response structure, as far as `call_gemini_api` reads it

`result.get('candidates', [{}])[0].get('content', {}).get('parts', [{}])[0].get('text')`
— each `Option` is a JSON field that may be absent (`dict.get` default). -/

structure GeminiPart where
  text : Option String
deriving DecidableEq, Repr

structure GeminiContent where
  parts : Option (List GeminiPart)
deriving DecidableEq, Repr

structure GeminiCandidate where
  content : Option GeminiContent
  finishReason : Option String
deriving DecidableEq, Repr

structure GeminiResult where
  candidates : Option (List GeminiCandidate)
deriving DecidableEq, Repr

/-- Python exceptions that the modelled code can raise. -/
inductive PyExc where
  /-- `requests.exceptions.HTTPError` thrown by `raise_for_status()`;
  carries `e.response.status_code` and `e.response.text`. -/
  | httpError (status : Nat) (body : String)
  /-- `requests.exceptions.RequestException` from `requests.post`
  (connection error or timeout). -/
  | requestExc (msg : String)
  /-- `FileNotFoundError` from `open`. -/
  | fileNotFound (path : String)
  /-- `json.JSONDecodeError` from `json.load`. -/
  | jsonDecodeError (msg : String)
  /-- any other `Exception` (e.g. `IndexError` from `[0]` on an empty list,
  or a `ValueError` while decoding the response body). -/
  | otherExc (msg : String)
deriving DecidableEq, Repr

/-- Class test `isinstance(e, requests.exceptions.HTTPError)`. -/
def isHTTPError : PyExc → Bool
  | .httpError _ _ => true
  | _ => false

/-- Class test `isinstance(e, requests.exceptions.RequestException)`;
`HTTPError` is a subclass of `RequestException`. -/
def isRequestException : PyExc → Bool
  | .httpError _ _ => true
  | .requestExc _ => true
  | _ => false

/-- Class test `isinstance(e, Exception)`: every exception the modelled code
can raise is an `Exception`. -/
def isException : PyExc → Bool
  | _ => true

/-- Class test `isinstance(e, FileNotFoundError)`. -/
def isFileNotFound : PyExc → Bool
  | .fileNotFound _ => true
  | _ => false

/-- Class test `isinstance(e, json.JSONDecodeError)`. -/
def isJSONDecodeError : PyExc → Bool
  | .jsonDecodeError _ => true
  | _ => false

/-- Outcome of the single `requests.post` in `call_gemini_api`, as decided by
the external world. -/
inductive NetOutcome where
  /-- `requests.post` itself raised (connection error / timeout). -/
  | requestError (msg : String)
  /-- a response arrived: HTTP status, raw body text, and the decoded JSON
  body (`none` when `response.json()` fails to decode). -/
  | response (status : Nat) (body : String) (json : Option GeminiResult)
deriving DecidableEq, Repr

/-- The network's behaviour as a function of the outgoing prompt and system
instruction (the two request-dependent parts of the payload). -/
def NetBehavior := String → String → NetOutcome

/-! ### `call_gemini_api` -/

/-- The body of the `try:` block of `call_gemini_api`, line by line:
`requests.post` (may raise), `raise_for_status` (raises `HTTPError` for
status 400–599), `response.json()` (raises on undecodable body), then
`result.get('candidates', [{}])[0].get('content', {}).get('parts', [{}])[0]
.get('text')` (the two `[0]` raise `IndexError` on an empty list), and
finally the truthiness check on the extracted text. -/
def geminiTryBody (net : NetOutcome) : Except PyExc String :=
  match net with
  | .requestError msg => .error (.requestExc msg)
  | .response status body json =>
    if 400 ≤ status ∧ status < 600 then
      .error (.httpError status body)
    else
      match json with
      | none => .error (.otherExc "response body was not valid JSON")
      | some result =>
        match result.candidates.getD [⟨none, none⟩] with
        | [] => .error (.otherExc "IndexError: list index out of range")
        | candidate :: _ =>
          match (candidate.content.getD ⟨none⟩).parts.getD [⟨none⟩] with
          | [] => .error (.otherExc "IndexError: list index out of range")
          | part :: _ =>
            match part.text with
            | some t =>
              if pyTruthy t then
                .ok (pyStrip t)
              else
                .ok "回饋失敗：AI 服務暫時無法提供內容。"
            | none => .ok "回饋失敗：AI 服務暫時無法提供內容。"

/-- `call_gemini_api(prompt, system_instruction)`.  Besides the returned
string the model carries the number of outbound HTTP attempts (0 or 1).
The `if not API_KEY` guard fires for a missing or empty credential; the
`except` chain is tried in source order using the class-hierarchy tests. -/
def call_gemini_api (apiKey : Option String) (net : NetBehavior)
    (prompt system_instruction : String) : Except PyExc (String × Nat) :=
  if apiKey.getD "" = "" then
    .ok ("回饋失敗：AI 服務未配置 (API Key 缺失)。", 0)
  else
    match geminiTryBody (net prompt system_instruction) with
    | .ok t => .ok (t, 1)
    | .error e =>
      if isHTTPError e then
        .ok ("回饋失敗：API 服務錯誤 (代碼: " ++ toString (statusOf e) ++
             ")。請檢查 API Key 是否有效或是否有使用限制。", 1)
      else if isRequestException e then
        .ok ("回饋失敗：網路連線錯誤或超時。", 1)
      else if isException e then
        .ok ("回饋失敗：內部處理錯誤。", 1)
      else
        .error e
where
  /-- `e.response.status_code`, read only under `isHTTPError`. -/
  statusOf : PyExc → Nat
    | .httpError st _ => st
    | _ => 0

/-! ### Strategy A — `generate_word_hints_text` -/

/-- `hints_system_instruction` (verbatim from the source). -/
def hints_system_instruction : String :=
  "你是一位親切且專業的英文老師，正在為圖片單字解謎遊戲提供輔助提示。你的任務是根據學生錯過的單字，" ++
  "提供簡短、精確的中文描述提示，幫助他們推理出正確答案。請以鼓勵和友善的語氣回覆。單字的提示必須符合圖片的意境。"

/-- The `missing_words_prompts` list built by the `for i, word in
enumerate(correct_answers)` loop: one line per correct answer that occurs in
`missing_words`, with `tips[i] if i < len(tips) else '物件'` as the
category. -/
def missing_words_prompts (tips correct_answers missing_words : List String) :
    List String :=
  correct_answers.enum.filterMap fun p =>
    if p.2 ∈ missing_words then
      some ("單字: " ++ p.2 ++ " (類別: " ++
        (if h : p.1 < tips.length then tips.get ⟨p.1, h⟩ else "物件") ++ ")")
    else none

/-- The `prompt_hints` f-string (verbatim), with the two interpolations:
`', '.join(incorrect_words) if incorrect_words else '無'` and
`', '.join(missing_words_prompts)`. -/
def prompt_hints (incorrect_words mwp : List String) : String :=
  "遊戲情境：學生正在玩圖片解謎遊戲，需要根據圖片內容猜出單字。圖片中還有學生猜錯的單字： " ++
  (if incorrect_words = [] then "無" else pyJoin ", " incorrect_words) ++
  "。你的任務是提供輔助。 " ++
  "請針對以下『遺漏的正確單字』提供**簡短的中文描述提示**，幫助他猜出正確答案。 " ++
  "請勿透露單字本身。回覆內容必須是純文字，不需要標題，不需要額外的教學或解釋，僅提供提示內容。 " ++
  "每個單字的提示**不超過 30 個中文字**。如果有多個單字，請務必使用**中文分號「；」**連接所有提示。 " ++
  "需要提示的遺漏單字列表：" ++ pyJoin ", " mwp ++ "。"

/-- `critique_system_instruction` (verbatim). -/
def critique_system_instruction : String :=
  "你是一位嚴謹的英文老師。你的任務是分析學生的英文造句，根據句型要求和應使用的單字，" ++
  "提供具體的修正建議。回饋必須親切、鼓勵，並且以中文書寫。"

/-- The `critique_prompt` f-string (verbatim). -/
def critique_prompt (user_sentence : String) (correct_words : List String)
    (sentence_prompt : String) : String :=
  "請分析以下學生造的英文句子：\n\n" ++
  "**使用者句子 (User Sentence):** 『" ++ user_sentence ++ "』\n" ++
  "**本關卡要求的單字 (Required Words, total 3):** " ++ pyJoin ", " correct_words ++ "\n" ++
  "**句型提示 (Sentence Prompt):** 『" ++ sentence_prompt ++ "』\n\n" ++
  "請根據以下優先順序給予修正與建議 (作為『造句回饋』):\n" ++
  "1. 句子是否符合句型提示的要求？若不符，請指示修正。\n" ++
  "2. 句子中是否有明顯的文法或拼寫錯誤？若有，請修正。\n" ++
  "3. 提醒學生還沒猜對所有單字，鼓勵他們嘗試使用已猜出的單字造句。\n" ++
  "回覆格式：請直接輸出文法建議和鼓勵，總長度限制在 50 到 100 個中文字之間。"

/-- The metadata record for one level of `easy_mode.json`: the `tip` and
`answer` arrays are read with `.get(..., [])`, while `item['level']` is a
plain (bracket) access on a record the JSON file always provides. -/
structure LevelInfo where
  level : Int
  tip : Option (List String)
  answer : Option (List String)
deriving DecidableEq, Repr

/-- `generate_word_hints_text` — feedback when some words are missing:
build the per-word hint request lines, ask the model for hints, ask it a
second time for a sentence critique, and compose
`f"您造的句子是：{user_sentence}\n\n{ai_hints}\n\n{ai_critique}"`.
The second component of the result counts outbound HTTP attempts. -/
def generate_word_hints_text (apiKey : Option String) (net1 net2 : NetBehavior)
    (level_info : LevelInfo) (missing_words incorrect_words : List String)
    (user_sentence : String) (correct_words : List String)
    (sentence_prompt : String) : Except PyExc (String × Nat) :=
  let tips := level_info.tip.getD []
  let correct_answers := level_info.answer.getD []
  let mwp := missing_words_prompts tips correct_answers missing_words
  match call_gemini_api apiKey net1 (prompt_hints incorrect_words mwp)
      hints_system_instruction with
  | .error e => .error e
  | .ok (ai_hints, k1) =>
    match call_gemini_api apiKey net2
        (critique_prompt user_sentence correct_words sentence_prompt)
        critique_system_instruction with
    | .error e => .error e
    | .ok (ai_critique, k2) =>
      .ok ("您造的句子是：" ++ user_sentence ++ "\n\n" ++ ai_hints ++ "\n\n" ++
           ai_critique, k1 + k2)

/-! ### Strategy B — `analyze_user_sentence_text` -/

/-- The `system_instruction` of `analyze_user_sentence_text` (verbatim). -/
def analyze_system_instruction : String :=
  "你是一位嚴謹的英文寫作與文法老師。你的任務是分析學生的英文造句，提供具體的文法修正和句型使用建議。回饋必須親切、鼓勵，並且以中文書寫。"

/-- The `prompt` f-string of `analyze_user_sentence_text` (verbatim). -/
def analyze_prompt (user_sentence : String) (correct_words : List String)
    (sentence_prompt : String) : String :=
  "請分析以下學生造的英文句子，進行嚴格的檢查和回饋：\n\n" ++
  "1. **使用者句子 (User Sentence):** 『" ++ user_sentence ++ "』\n" ++
  "2. **必須使用的三個單字 (Required Words):** " ++ pyJoin ", " correct_words ++ "\n" ++
  "3. **句型提示 (Sentence Prompt):** 『" ++ sentence_prompt ++ "』\n\n" ++
  "請確認：\n" ++
  "a) **【強制檢查】** 句子是否完整且準確地使用了所有『必須使用的三個單字』。\n" ++
  "b) **【強制檢查】** 句子是否完全符合句型提示的要求。\n" ++
  "c) 句子中是否有任何文法、詞彙或拼寫錯誤。\n\n" ++
  "🎯 關鍵要求：回覆格式必須以『恭喜你完全答對了！』開頭，接著是文法修正建議和鼓勵。如果句子在單字使用、句型合規和文法上**完全正確**，則給予高度讚揚。總長度限制在 50 到 100 個中文字之間。請直接輸出回饋內容，不包含額外標題。"

/-- `analyze_user_sentence_text` — feedback when all words were guessed:
one model call, then `f"您造的句子是：{user_sentence}\n\n{ai_critique}"`. -/
def analyze_user_sentence_text (apiKey : Option String) (net : NetBehavior)
    (user_sentence : String) (correct_words : List String)
    (sentence_prompt : String) : Except PyExc (String × Nat) :=
  match call_gemini_api apiKey net
      (analyze_prompt user_sentence correct_words sentence_prompt)
      analyze_system_instruction with
  | .error e => .error e
  | .ok (ai_critique, k) =>
    .ok ("您造的句子是：" ++ user_sentence ++ "\n\n" ++ ai_critique, k)

/-! ### The `/api/ai_feedback` request handler -/

/-- The JSON request body; each field may be absent (`data.get(..., default)`). -/
structure ReqBody where
  level : Option Int
  missing_words : Option (List String)
  incorrect_words : Option (List String)
  user_sentence : Option String
  sentence_prompt : Option String
  correct_words : Option (List String)
deriving Repr

/-- The state of `static/data/easy_mode.json` when the handler opens it. -/
inductive DataSource where
  /-- the file does not exist (`open` raises `FileNotFoundError`). -/
  | missing
  /-- the file exists but is not valid JSON (`json.load` raises
  `json.JSONDecodeError`). -/
  | malformed
  /-- reading fails with some other exception (e.g. `PermissionError`),
  which the inner `except (FileNotFoundError, json.JSONDecodeError)`
  clause does not catch. -/
  | ioError (msg : String)
  /-- the file parses into a list of level records. -/
  | ok (levels : List LevelInfo)

/-- The process-wide environment of one request: the credential, the
metadata file, and the network's behaviour for the first and second
outbound call of the request. -/
structure Env where
  apiKey : Option String
  dataSource : DataSource
  net1 : NetBehavior
  net2 : NetBehavior

/-- Which feedback strategy the dispatch selected. -/
inductive Strat where
  /-- `generate_word_hints_text` (some required words still missing). -/
  | A
  /-- `analyze_user_sentence_text` (all required words found). -/
  | B
deriving DecidableEq, Repr

/-- What the route returns, with ghost observability fields: the rendered
`feedback` string, the HTTP status, the number of `call_gemini_api`
invocations, the number of outbound HTTP attempts, and which strategy (if
any) was dispatched. -/
structure Response where
  feedback : String
  status : Nat
  aiCalls : Nat
  netCalls : Nat
  strategy : Option Strat
deriving Repr

/-- `open(EASY_MODE_JSON_PATH) ... json.load(f)` under the given file state. -/
def load_levels : DataSource → Except PyExc (List LevelInfo)
  | .missing => .error (.fileNotFound "static/data/easy_mode.json")
  | .malformed => .error (.jsonDecodeError "Expecting value")
  | .ioError msg => .error (.otherExc msg)
  | .ok levels => .ok levels

/-- The body of the route after field extraction: the inner `try` around the
metadata load, the `next(...)` level lookup, and the two-way dispatch on
`if not missing_words`.  Exceptions not caught by the inner `except` clause
propagate to the route's outer catch-all. -/
def get_ai_feedback_core (env : Env) (current_level : Int)
    (missing_words incorrect_words : List String)
    (user_sentence sentence_prompt : String) (correct_words : List String) :
    Except PyExc Response :=
  match load_levels env.dataSource with
  | .error e =>
    if isFileNotFound e || isJSONDecodeError e then
      .ok { feedback := "回饋失敗：後端數據文件 (easy_mode.json) 遺失或格式錯誤。",
            status := 200, aiCalls := 0, netCalls := 0, strategy := none }
    else
      .error e
  | .ok all_levels_data =>
    match all_levels_data.find? (fun item => item.level == current_level) with
    | none =>
      .ok { feedback := "系統錯誤：找不到關卡 " ++ toString current_level ++
                        " 的資料。請檢查 easy_mode.json。",
            status := 200, aiCalls := 0, netCalls := 0, strategy := none }
    | some level_info =>
      if missing_words = [] then
        if user_sentence = "" then
          .ok { feedback := "恭喜你完全答對了！\n\n請先輸入您的英文造句，以便 AI 進行回饋分析。",
                status := 200, aiCalls := 0, netCalls := 0, strategy := some .B }
        else
          match analyze_user_sentence_text env.apiKey env.net1 user_sentence
              correct_words sentence_prompt with
          | .error e => .error e
          | .ok (feedback, k) =>
            .ok { feedback := feedback, status := 200, aiCalls := 1,
                  netCalls := k, strategy := some .B }
      else
        match generate_word_hints_text env.apiKey env.net1 env.net2 level_info
            missing_words incorrect_words user_sentence correct_words
            sentence_prompt with
        | .error e => .error e
        | .ok (feedback, k) =>
          .ok { feedback := feedback, status := 200, aiCalls := 2,
                netCalls := k, strategy := some .A }

/-- Field extraction at the top of the route:
`data.get('level', 1)`, `data.get('missing_words', [])`, …,
`data.get('user_sentence', '').strip()`, `data.get('sentence_prompt', '').strip()`. -/
def get_ai_feedback_body (env : Env) (data : ReqBody) : Except PyExc Response :=
  get_ai_feedback_core env (data.level.getD 1) (data.missing_words.getD [])
    (data.incorrect_words.getD []) (pyStrip (data.user_sentence.getD ""))
    (pyStrip (data.sentence_prompt.getD "")) (data.correct_words.getD [])

/-- The route `get_ai_feedback`: its whole body sits in a `try:` whose
catch-all `except Exception` converts any escaped exception into a generic
error payload with HTTP status 500. -/
def get_ai_feedback (env : Env) (data : ReqBody) : Response :=
  match get_ai_feedback_body env data with
  | .ok r => r
  | .error _ =>
    { feedback := "伺服器處理錯誤，請檢查後端控制台。", status := 500,
      aiCalls := 0, netCalls := 0, strategy := none }

/-! ### Helper lemmas -/

/-- Every invocation of the client produces an `ok` result: the `except`
chain of `call_gemini_api` catches every exception its `try` body can raise. -/
theorem call_gemini_api_ok (apiKey : Option String) (net : NetBehavior)
    (p si : String) : ∃ t k, call_gemini_api apiKey net p si = .ok (t, k) := by
  unfold call_gemini_api
  split
  · exact ⟨_, _, rfl⟩
  · cases h : geminiTryBody (net p si) with
    | ok t => exact ⟨_, _, rfl⟩
    | error e =>
      cases e <;> simp [isHTTPError, isRequestException, isException]

/-- The head of `dropWhile p l`, when present, falsifies `p`. -/
theorem dropWhile_head?_false {p : α → Bool} {l : List α} {x : α}
    (h : (l.dropWhile p).head? = some x) : p x = false := by
  have hd := List.head?_dropWhile_not p l
  rw [h] at hd
  exact hd

/-- `dropWhile` leaves a list whose head (if any) falsifies `p` unchanged. -/
theorem dropWhile_eq_self_of_head? {p : α → Bool} {l : List α}
    (h : ∀ x, l.head? = some x → p x = false) : l.dropWhile p = l := by
  cases l with
  | nil => rfl
  | cons a t => rw [List.dropWhile_cons, h a rfl]; simp

/-- `dropWhile p l` is a suffix of `l`, as an explicit decomposition. -/
theorem exists_append_dropWhile (p : α → Bool) (l : List α) :
    ∃ c, l = c ++ l.dropWhile p := by
  induction l with
  | nil => exact ⟨[], rfl⟩
  | cons a t ih =>
    rw [List.dropWhile_cons]
    by_cases hpa : p a = true
    · obtain ⟨c, hc⟩ := ih
      exact ⟨a :: c, by simp [hpa]; exact hc⟩
    · exact ⟨[], by simp [hpa]⟩

/-- Stripping a character list from both ends is idempotent. -/
theorem stripChars_idem (w : Char → Bool) (l : List Char) :
    (((((l.dropWhile w).reverse.dropWhile w).reverse).dropWhile w).reverse.dropWhile w).reverse
      = ((l.dropWhile w).reverse.dropWhile w).reverse := by
  have hA : (((l.dropWhile w).reverse.dropWhile w).reverse).dropWhile w
      = ((l.dropWhile w).reverse.dropWhile w).reverse := by
    apply dropWhile_eq_self_of_head?
    intro x hx
    rw [List.head?_reverse] at hx
    obtain ⟨c, hc⟩ := exists_append_dropWhile w (l.dropWhile w).reverse
    have h2 : (l.dropWhile w).head? = some x := by
      rw [← List.getLast?_reverse (l.dropWhile w), hc, List.getLast?_append, hx]
      rfl
    exact dropWhile_head?_false h2
  rw [hA, List.reverse_reverse]
  have hB : ((l.dropWhile w).reverse.dropWhile w).dropWhile w
      = (l.dropWhile w).reverse.dropWhile w := by
    apply dropWhile_eq_self_of_head?
    intro x hx
    exact dropWhile_head?_false hx
  rw [hB]

/-- Python's `strip` is idempotent. -/
theorem pyStrip_idem (s : String) : pyStrip (pyStrip s) = pyStrip s :=
  congrArg String.mk (stripChars_idem Char.isWhitespace s.data)

/-- Stripping the empty string. -/
theorem pyStrip_empty : pyStrip "" = "" := rfl

/-- Core shape, missing or malformed metadata file: the inner `except`
clause catches and the request is answered with the data-file error text. -/
theorem core_data_error (env : Env) (lvl : Int) (mw iw : List String)
    (us sp : String) (cw : List String)
    (h : env.dataSource = .missing ∨ env.dataSource = .malformed) :
    get_ai_feedback_core env lvl mw iw us sp cw =
      .ok { feedback := "回饋失敗：後端數據文件 (easy_mode.json) 遺失或格式錯誤。",
            status := 200, aiCalls := 0, netCalls := 0, strategy := none } := by
  unfold get_ai_feedback_core
  rcases h with h | h <;>
    rw [h] <;>
    simp [load_levels, isFileNotFound, isJSONDecodeError]

/-- Core shape, other read failure: the exception is not caught here. -/
theorem core_io_error (env : Env) (lvl : Int) (mw iw : List String)
    (us sp : String) (cw : List String) (msg : String)
    (h : env.dataSource = .ioError msg) :
    get_ai_feedback_core env lvl mw iw us sp cw = .error (.otherExc msg) := by
  unfold get_ai_feedback_core
  rw [h]
  simp [load_levels, isFileNotFound, isJSONDecodeError]

/-- Core shape, unknown level: the `next(...)` lookup found nothing. -/
theorem core_not_found (env : Env) (lvl : Int) (mw iw : List String)
    (us sp : String) (cw : List String) (levels : List LevelInfo)
    (hds : env.dataSource = .ok levels)
    (hf : levels.find? (fun item => item.level == lvl) = none) :
    get_ai_feedback_core env lvl mw iw us sp cw =
      .ok { feedback := "系統錯誤：找不到關卡 " ++ toString lvl ++
                        " 的資料。請檢查 easy_mode.json。",
            status := 200, aiCalls := 0, netCalls := 0, strategy := none } := by
  unfold get_ai_feedback_core
  rw [hds]
  simp [load_levels, hf]

/-- Core shape, all words guessed but no sentence: the static reminder is
returned with no client invocation. -/
theorem core_short_circuit (env : Env) (lvl : Int) (mw iw : List String)
    (us sp : String) (cw : List String) (levels : List LevelInfo)
    (li : LevelInfo) (hds : env.dataSource = .ok levels)
    (hf : levels.find? (fun item => item.level == lvl) = some li)
    (hmw : mw = []) (hus : us = "") :
    get_ai_feedback_core env lvl mw iw us sp cw =
      .ok { feedback := "恭喜你完全答對了！\n\n請先輸入您的英文造句，以便 AI 進行回饋分析。",
            status := 200, aiCalls := 0, netCalls := 0, strategy := some .B } := by
  unfold get_ai_feedback_core
  rw [hds]
  simp [load_levels, hf, hmw, hus]

/-- Core shape, Strategy B with a sentence: one client call, two-block
composition. -/
theorem core_strategyB (env : Env) (lvl : Int) (mw iw : List String)
    (us sp : String) (cw : List String) (levels : List LevelInfo)
    (li : LevelInfo) (hds : env.dataSource = .ok levels)
    (hf : levels.find? (fun item => item.level == lvl) = some li)
    (hmw : mw = []) (hus : us ≠ "") :
    ∃ c k,
      call_gemini_api env.apiKey env.net1 (analyze_prompt us cw sp)
          analyze_system_instruction = .ok (c, k) ∧
      get_ai_feedback_core env lvl mw iw us sp cw =
        .ok { feedback := "您造的句子是：" ++ us ++ "\n\n" ++ c,
              status := 200, aiCalls := 1, netCalls := k, strategy := some .B } := by
  obtain ⟨c, k, hc⟩ := call_gemini_api_ok env.apiKey env.net1
    (analyze_prompt us cw sp) analyze_system_instruction
  refine ⟨c, k, hc, ?_⟩
  unfold get_ai_feedback_core
  rw [hds]
  simp [load_levels, hf, hmw, hus, analyze_user_sentence_text, hc]

/-- Core shape, Strategy A: two client calls, three-block composition. -/
theorem core_strategyA (env : Env) (lvl : Int) (mw iw : List String)
    (us sp : String) (cw : List String) (levels : List LevelInfo)
    (li : LevelInfo) (hds : env.dataSource = .ok levels)
    (hf : levels.find? (fun item => item.level == lvl) = some li)
    (hmw : mw ≠ []) :
    ∃ h nh c nc,
      call_gemini_api env.apiKey env.net1
          (prompt_hints iw (missing_words_prompts (li.tip.getD [])
            (li.answer.getD []) mw)) hints_system_instruction = .ok (h, nh) ∧
      call_gemini_api env.apiKey env.net2 (critique_prompt us cw sp)
          critique_system_instruction = .ok (c, nc) ∧
      get_ai_feedback_core env lvl mw iw us sp cw =
        .ok { feedback := "您造的句子是：" ++ us ++ "\n\n" ++ h ++ "\n\n" ++ c,
              status := 200, aiCalls := 2, netCalls := nh + nc,
              strategy := some .A } := by
  obtain ⟨h, nh, hh⟩ := call_gemini_api_ok env.apiKey env.net1
    (prompt_hints iw (missing_words_prompts (li.tip.getD [])
      (li.answer.getD []) mw)) hints_system_instruction
  obtain ⟨c, nc, hc⟩ := call_gemini_api_ok env.apiKey env.net2
    (critique_prompt us cw sp) critique_system_instruction
  refine ⟨h, nh, c, nc, hh, hc, ?_⟩
  unfold get_ai_feedback_core
  rw [hds]
  simp [load_levels, hf, hmw, generate_word_hints_text, hh, hc]

/-- Lifting a core result to the route's response. -/
theorem route_of_core (env : Env) (data : ReqBody) (r : Response)
    (h : get_ai_feedback_core env (data.level.getD 1) (data.missing_words.getD [])
        (data.incorrect_words.getD []) (pyStrip (data.user_sentence.getD ""))
        (pyStrip (data.sentence_prompt.getD "")) (data.correct_words.getD [])
        = .ok r) :
    get_ai_feedback env data = r := by
  unfold get_ai_feedback get_ai_feedback_body
  rw [h]

/-- Lifting a core exception to the route's catch-all 500 response. -/
theorem route_of_core_error (env : Env) (data : ReqBody) (e : PyExc)
    (h : get_ai_feedback_core env (data.level.getD 1) (data.missing_words.getD [])
        (data.incorrect_words.getD []) (pyStrip (data.user_sentence.getD ""))
        (pyStrip (data.sentence_prompt.getD "")) (data.correct_words.getD [])
        = .error e) :
    get_ai_feedback env data =
      { feedback := "伺服器處理錯誤，請檢查後端控制台。", status := 500,
        aiCalls := 0, netCalls := 0, strategy := none } := by
  unfold get_ai_feedback get_ai_feedback_body
  rw [h]

/-! ### Concrete fixtures for witnesses -/

/-- A sample level record (level 1 of `easy_mode.json`). -/
def sampleLevel : LevelInfo :=
  { level := 1, tip := some ["動物", "動物", "自然"],
    answer := some ["cat", "dog", "sun"] }

/-- A network that always fails with a timeout. -/
def netFail : NetBehavior := fun _ _ => .requestError "timeout"

/-- An environment with no credential and an intact metadata file. -/
def envOk : Env :=
  { apiKey := none, dataSource := .ok [sampleLevel], net1 := netFail,
    net2 := netFail }

/-! ### Claims -/

/-- C1: the language-model client operation (`call_gemini_api`) never throws
past its boundary: for every credential state, network behaviour, prompt and
system instruction — covering the missing-credential guard, HTTP error
statuses, network/timeout errors, an absent text field in the response, and
any other exception during response handling — it produces an `ok` plain
string rather than propagating an exception. -/
theorem claim_C1_client_never_throws :
    ∀ (apiKey : Option String) (net : NetBehavior) (prompt si : String),
      (call_gemini_api apiKey net prompt si).isOk = true := by
  intro apiKey net p si
  obtain ⟨t, k, h⟩ := call_gemini_api_ok apiKey net p si
  rw [h]
  rfl

/-- C5: while the service credential is absent from process-wide state, every
client invocation returns the fixed "AI service not configured" fallback
string immediately, and the outbound call count is zero. -/
theorem claim_C5_no_credential_no_network :
    ∀ (net : NetBehavior) (prompt si : String),
      call_gemini_api none net prompt si =
        .ok ("回饋失敗：AI 服務未配置 (API Key 缺失)。", 0) := by
  intro net p si
  rfl

/-- C4: for every request with empty `missing_words` and a blank (empty or
whitespace-only) `user_sentence`, once its round metadata loads and the round
is found, the handler short-circuits: no client invocation and no outbound
call occurs, and the response is exactly the fixed congratulatory reminder
with HTTP status 200. -/
theorem claim_C4_blank_sentence_short_circuit :
    ∀ (env : Env) (b : ReqBody) (levels : List LevelInfo) (li : LevelInfo),
      env.dataSource = .ok levels →
      levels.find? (fun item => item.level == b.level.getD 1) = some li →
      b.missing_words.getD [] = [] →
      pyStrip (b.user_sentence.getD "") = "" →
      get_ai_feedback env b =
        { feedback := "恭喜你完全答對了！\n\n請先輸入您的英文造句，以便 AI 進行回饋分析。",
          status := 200, aiCalls := 0, netCalls := 0, strategy := some .B } := by
  intro env b levels li hds hf hmw hus
  exact route_of_core env b _
    (core_short_circuit env _ _ _ _ _ _ levels li hds hf hmw hus)

/-- Witness for C4 at a concrete whitespace-only sentence. -/
theorem claim_C4_witness :
    (envOk.dataSource = .ok [sampleLevel] ∧
     [sampleLevel].find? (fun item => item.level ==
       (ReqBody.mk none (some []) none (some "   ") none none).level.getD 1)
       = some sampleLevel ∧
     (ReqBody.mk none (some []) none (some "   ") none none).missing_words.getD [] = [] ∧
     pyStrip ((ReqBody.mk none (some []) none (some "   ") none none).user_sentence.getD "") = "") ∧
    get_ai_feedback envOk (ReqBody.mk none (some []) none (some "   ") none none) =
      { feedback := "恭喜你完全答對了！\n\n請先輸入您的英文造句，以便 AI 進行回饋分析。",
        status := 200, aiCalls := 0, netCalls := 0, strategy := some .B } :=
  ⟨⟨rfl, rfl, rfl, rfl⟩,
   claim_C4_blank_sentence_short_circuit envOk
     (ReqBody.mk none (some []) none (some "   ") none none)
     [sampleLevel] sampleLevel rfl rfl rfl rfl⟩

/-- C6: for every request whose round number has no matching entry in the
metadata table, the handler responds with HTTP status 200, a feedback text
that is the fixed "round not found" message — which contains the requested
round number — and neither feedback strategy is invoked. -/
theorem claim_C6_round_not_found :
    ∀ (env : Env) (b : ReqBody) (levels : List LevelInfo),
      env.dataSource = .ok levels →
      levels.find? (fun item => item.level == b.level.getD 1) = none →
      (get_ai_feedback env b).status = 200 ∧
      (get_ai_feedback env b).feedback =
        "系統錯誤：找不到關卡 " ++ toString (b.level.getD 1) ++
        " 的資料。請檢查 easy_mode.json。" ∧
      (∃ pre post, (get_ai_feedback env b).feedback =
        pre ++ toString (b.level.getD 1) ++ post) ∧
      (get_ai_feedback env b).strategy = none ∧
      (get_ai_feedback env b).aiCalls = 0 ∧
      (get_ai_feedback env b).netCalls = 0 := by
  intro env b levels hds hf
  have hr := route_of_core env b _
    (core_not_found env (b.level.getD 1) _ _ _ _ _ levels hds hf)
  rw [hr]
  exact ⟨rfl, rfl,
    ⟨"系統錯誤：找不到關卡 ", " 的資料。請檢查 easy_mode.json。", rfl⟩, rfl, rfl, rfl⟩

/-- Witness for C6 at a concrete absent round number (7). -/
theorem claim_C6_witness :
    (envOk.dataSource = .ok [sampleLevel] ∧
     [sampleLevel].find? (fun item => item.level ==
       (ReqBody.mk (some 7) none none none none none).level.getD 1) = none) ∧
    ((get_ai_feedback envOk (ReqBody.mk (some 7) none none none none none)).status = 200 ∧
     (get_ai_feedback envOk (ReqBody.mk (some 7) none none none none none)).feedback =
       "系統錯誤：找不到關卡 " ++
       toString ((ReqBody.mk (some 7) none none none none none).level.getD 1) ++
       " 的資料。請檢查 easy_mode.json。" ∧
     (∃ pre post,
       (get_ai_feedback envOk (ReqBody.mk (some 7) none none none none none)).feedback =
         pre ++ toString ((ReqBody.mk (some 7) none none none none none).level.getD 1) ++ post) ∧
     (get_ai_feedback envOk (ReqBody.mk (some 7) none none none none none)).strategy = none ∧
     (get_ai_feedback envOk (ReqBody.mk (some 7) none none none none none)).aiCalls = 0 ∧
     (get_ai_feedback envOk (ReqBody.mk (some 7) none none none none none)).netCalls = 0) :=
  ⟨⟨rfl, rfl⟩,
   claim_C6_round_not_found envOk (ReqBody.mk (some 7) none none none none none)
     [sampleLevel] rfl rfl⟩

/-- C7: for every request, if the round-metadata source is missing or
malformed, the handler responds with the fixed data-file error text at HTTP
status 200 instead of failing the request, and no strategy runs. -/
theorem claim_C7_data_file_error :
    ∀ (env : Env) (b : ReqBody),
      (env.dataSource = .missing ∨ env.dataSource = .malformed) →
      (get_ai_feedback env b).status = 200 ∧
      (get_ai_feedback env b).feedback =
        "回饋失敗：後端數據文件 (easy_mode.json) 遺失或格式錯誤。" ∧
      (get_ai_feedback env b).strategy = none ∧
      (get_ai_feedback env b).aiCalls = 0 := by
  intro env b h
  have hr := route_of_core env b _
    (core_data_error env (b.level.getD 1) _ _ _ _ _ h)
  rw [hr]
  exact ⟨rfl, rfl, rfl, rfl⟩

/-- Witness for C7 at a concrete missing metadata file. -/
theorem claim_C7_witness :
    ((Env.mk none .missing netFail netFail).dataSource = .missing ∨
     (Env.mk none .missing netFail netFail).dataSource = .malformed) ∧
    ((get_ai_feedback (Env.mk none .missing netFail netFail)
        (ReqBody.mk none none none none none none)).status = 200 ∧
     (get_ai_feedback (Env.mk none .missing netFail netFail)
        (ReqBody.mk none none none none none none)).feedback =
       "回饋失敗：後端數據文件 (easy_mode.json) 遺失或格式錯誤。" ∧
     (get_ai_feedback (Env.mk none .missing netFail netFail)
        (ReqBody.mk none none none none none none)).strategy = none ∧
     (get_ai_feedback (Env.mk none .missing netFail netFail)
        (ReqBody.mk none none none none none none)).aiCalls = 0) :=
  ⟨Or.inl rfl,
   claim_C7_data_file_error (Env.mk none .missing netFail netFail)
     (ReqBody.mk none none none none none none) (Or.inl rfl)⟩

/-- C2: for every feedback request that reaches strategy dispatch, the chosen
strategy is determined solely by whether the missing-words set is empty: an
empty `missing_words` selects the sentence-analysis strategy (B) and a
non-empty one selects the hint-plus-critique strategy (A).  The
characterisation mentions no request field other than `missing_words`, so no
other field influences the branch. -/
theorem claim_C2_dispatch_solely_by_missing :
    ∀ (env : Env) (b : ReqBody) (s : Strat),
      (get_ai_feedback env b).strategy = some s →
      ((s = Strat.B ↔ b.missing_words.getD [] = []) ∧
       (s = Strat.A ↔ b.missing_words.getD [] ≠ [])) := by
  intro env b s h
  cases hds : env.dataSource with
  | missing =>
    rw [route_of_core env b _
      (core_data_error env (b.level.getD 1) _ _ _ _ _ (Or.inl hds))] at h
    simp at h
  | malformed =>
    rw [route_of_core env b _
      (core_data_error env (b.level.getD 1) _ _ _ _ _ (Or.inr hds))] at h
    simp at h
  | ioError msg =>
    rw [route_of_core_error env b _
      (core_io_error env (b.level.getD 1) _ _ _ _ _ msg hds)] at h
    simp at h
  | ok levels =>
    cases hf : levels.find? (fun item => item.level == b.level.getD 1) with
    | none =>
      rw [route_of_core env b _
        (core_not_found env (b.level.getD 1) _ _ _ _ _ levels hds hf)] at h
      simp at h
    | some li =>
      by_cases hmw : b.missing_words.getD [] = []
      · by_cases hus : pyStrip (b.user_sentence.getD "") = ""
        · rw [route_of_core env b _
            (core_short_circuit env (b.level.getD 1) _ _ _ _ _ levels li
              hds hf hmw hus)] at h
          simp only [Option.some.injEq] at h
          subst h
          constructor <;> simp [hmw]
        · obtain ⟨c, k, _, hcore⟩ := core_strategyB env (b.level.getD 1)
            (b.missing_words.getD []) (b.incorrect_words.getD [])
            (pyStrip (b.user_sentence.getD ""))
            (pyStrip (b.sentence_prompt.getD ""))
            (b.correct_words.getD []) levels li hds hf hmw hus
          rw [route_of_core env b _ hcore] at h
          simp only [Option.some.injEq] at h
          subst h
          constructor <;> simp [hmw]
      · obtain ⟨h1, nh, c, nc, _, _, hcore⟩ := core_strategyA env
          (b.level.getD 1) (b.missing_words.getD [])
          (b.incorrect_words.getD []) (pyStrip (b.user_sentence.getD ""))
          (pyStrip (b.sentence_prompt.getD ""))
          (b.correct_words.getD []) levels li hds hf hmw
        rw [route_of_core env b _ hcore] at h
        simp only [Option.some.injEq] at h
        subst h
        constructor <;> simp [hmw]

/-- Witness for C2: a concrete request with empty missing words is dispatched
to Strategy B. -/
theorem claim_C2_witness :
    (get_ai_feedback envOk
      (ReqBody.mk none none none (some "A cat.") none none)).strategy =
        some Strat.B ∧
    ((Strat.B = Strat.B ↔
      (ReqBody.mk none none none (some "A cat.") none none).missing_words.getD [] = []) ∧
     (Strat.B = Strat.A ↔
      (ReqBody.mk none none none (some "A cat.") none none).missing_words.getD [] ≠ [])) :=
  ⟨rfl, claim_C2_dispatch_solely_by_missing envOk
    (ReqBody.mk none none none (some "A cat.") none none) Strat.B rfl⟩

/-- A concrete Strategy-A request for the C3 witness: one word still
missing, one incorrect guess, an unstripped sentence. -/
def bodyA : ReqBody :=
  { level := none, missing_words := some ["cat"], incorrect_words := some ["dog"],
    user_sentence := some " A cat runs. ", sentence_prompt := some "S + V",
    correct_words := some ["cat", "dog", "sun"] }

/-- C3: for every request with non-empty `missing_words` (Strategy A) whose
round metadata loads and round is found, the feedback is exactly three
blank-line-separated blocks in fixed order — the echo of the user's sentence
prefixed with the standard phrase, the hint text returned by the first
client call, and the critique text returned by the second — and this holds
for every network behaviour, in particular when either client call degrades
to a fallback string. -/
theorem claim_C3_strategyA_three_blocks :
    ∀ (env : Env) (b : ReqBody) (levels : List LevelInfo) (li : LevelInfo),
      env.dataSource = .ok levels →
      levels.find? (fun item => item.level == b.level.getD 1) = some li →
      b.missing_words.getD [] ≠ [] →
      ∃ h nh c nc,
        call_gemini_api env.apiKey env.net1
            (prompt_hints (b.incorrect_words.getD [])
              (missing_words_prompts (li.tip.getD []) (li.answer.getD [])
                (b.missing_words.getD []))) hints_system_instruction
          = .ok (h, nh) ∧
        call_gemini_api env.apiKey env.net2
            (critique_prompt (pyStrip (b.user_sentence.getD ""))
              (b.correct_words.getD []) (pyStrip (b.sentence_prompt.getD "")))
            critique_system_instruction = .ok (c, nc) ∧
        (get_ai_feedback env b).feedback =
          pyJoin "\n\n"
            ["您造的句子是：" ++ pyStrip (b.user_sentence.getD ""), h, c] ∧
        (get_ai_feedback env b).status = 200 := by
  intro env b levels li hds hf hmw
  obtain ⟨h, nh, c, nc, hh, hc, hcore⟩ := core_strategyA env (b.level.getD 1)
    (b.missing_words.getD []) (b.incorrect_words.getD [])
    (pyStrip (b.user_sentence.getD "")) (pyStrip (b.sentence_prompt.getD ""))
    (b.correct_words.getD []) levels li hds hf hmw
  have hr := route_of_core env b _ hcore
  refine ⟨h, nh, c, nc, hh, hc, ?_, ?_⟩
  · rw [hr]
    simp [pyJoin, String.append_assoc]
  · rw [hr]

/-- Witness for C3 at the concrete request `bodyA`. -/
theorem claim_C3_witness :
    (envOk.dataSource = .ok [sampleLevel] ∧
     [sampleLevel].find? (fun item => item.level == bodyA.level.getD 1)
       = some sampleLevel ∧
     bodyA.missing_words.getD [] ≠ []) ∧
    (∃ h nh c nc,
      call_gemini_api envOk.apiKey envOk.net1
          (prompt_hints (bodyA.incorrect_words.getD [])
            (missing_words_prompts (sampleLevel.tip.getD [])
              (sampleLevel.answer.getD []) (bodyA.missing_words.getD [])))
          hints_system_instruction = .ok (h, nh) ∧
      call_gemini_api envOk.apiKey envOk.net2
          (critique_prompt (pyStrip (bodyA.user_sentence.getD ""))
            (bodyA.correct_words.getD [])
            (pyStrip (bodyA.sentence_prompt.getD "")))
          critique_system_instruction = .ok (c, nc) ∧
      (get_ai_feedback envOk bodyA).feedback =
        pyJoin "\n\n"
          ["您造的句子是：" ++ pyStrip (bodyA.user_sentence.getD ""), h, c] ∧
      (get_ai_feedback envOk bodyA).status = 200) :=
  ⟨⟨rfl, rfl, by decide⟩,
   claim_C3_strategyA_three_blocks envOk bodyA [sampleLevel] sampleLevel
     rfl rfl (by decide)⟩

/-- The positional category lookup of the hint loop equals an optional
lookup with the `"物件"` default. -/
theorem tip_lookup_eq_getD (tips : List String) (i : Nat) :
    (if h : i < tips.length then tips[i] else "物件")
      = tips[i]?.getD "物件" := by
  split
  · next h => rw [List.getElem?_eq_getElem h]; rfl
  · next h => rw [List.getElem?_eq_none (Nat.le_of_not_lt h)]; rfl

/-- C8: in Strategy A, the hint-request lines are exactly one line per
required word of the round that is present in the missing-words set, pairing
the word with its category hint looked up positionally from the round
metadata, with the category defaulting to "物件" ("object") when the word's
index is out of range of the category-hint list. -/
theorem claim_C8_hint_request_lines :
    ∀ (tips correct_answers missing_words : List String) (l : String),
      l ∈ missing_words_prompts tips correct_answers missing_words ↔
        ∃ (i : Nat) (w : String), correct_answers[i]? = some w ∧ w ∈ missing_words ∧
          l = "單字: " ++ w ++ " (類別: " ++ tips[i]?.getD "物件" ++ ")" := by
  intro tips ca mw l
  simp only [missing_words_prompts, List.mem_filterMap]
  constructor
  · rintro ⟨⟨i, w⟩, hmem, hf⟩
    rw [List.mk_mem_enum_iff_getElem?] at hmem
    by_cases hw : w ∈ mw
    · simp only [hw, if_true, if_pos] at hf
      refine ⟨i, w, by exact_mod_cast hmem, hw, ?_⟩
      rw [← tip_lookup_eq_getD]
      exact (Option.some.inj hf).symm
    · simp [hw] at hf
  · rintro ⟨i, w, hi, hw, rfl⟩
    refine ⟨(i, w), ?_, ?_⟩
    · rw [List.mk_mem_enum_iff_getElem?]
      exact_mod_cast hi
    · simp only [hw, if_true, if_pos]
      rw [← tip_lookup_eq_getD]
      rfl

/-- Witness for C8 at a concrete round: the hint line for the missing word
"cat" with its positional category. -/
theorem claim_C8_witness :
    "單字: cat (類別: 動物)" ∈
      missing_words_prompts ["動物", "動物", "自然"] ["cat", "dog", "sun"] ["cat"] ↔
    ∃ (i : Nat) (w : String),
      (["cat", "dog", "sun"] : List String)[i]? = some w ∧
      w ∈ (["cat"] : List String) ∧
      "單字: cat (類別: 動物)" =
        "單字: " ++ w ++ " (類別: " ++
          (["動物", "動物", "自然"] : List String)[i]?.getD "物件" ++ ")" :=
  claim_C8_hint_request_lines ["動物", "動物", "自然"] ["cat", "dog", "sun"]
    ["cat"] "單字: cat (類別: 動物)"

/-- C9: in composing a Strategy-A request, the hint lines are joined with
the separator only when several are present: a one-element list is emitted
verbatim with no separator inserted, a three-element list is joined with the
separator between consecutive elements; and the prompt embeds the joined
list in a fixed frame (the frame also carries the instruction that the
model join multiple generated clues with the designated "；" separator). -/
theorem claim_C9_separator_only_when_multiple :
    ∀ (incorrect_words : List String) (x a b c : String),
      pyJoin ", " [x] = x ∧
      pyJoin ", " [a, b, c] = a ++ ", " ++ b ++ ", " ++ c ∧
      (∃ pre,
        (∀ mwp, prompt_hints incorrect_words mwp =
          pre ++ "需要提示的遺漏單字列表：" ++ pyJoin ", " mwp ++ "。") ∧
        prompt_hints incorrect_words [x] =
          pre ++ "需要提示的遺漏單字列表：" ++ x ++ "。" ∧
        prompt_hints incorrect_words [a, b, c] =
          pre ++ "需要提示的遺漏單字列表：" ++
            (a ++ ", " ++ b ++ ", " ++ c) ++ "。") := by
  intro iw x a b c
  refine ⟨rfl, ?_, ?_⟩
  · simp [pyJoin, String.append_assoc]
  · refine ⟨_, fun mwp => rfl, rfl, ?_⟩
    simp [prompt_hints, pyJoin, String.append_assoc]

/-- C10: the handler strips leading and trailing whitespace from
`user_sentence` and `sentence_prompt` before any use — a request is handled
identically to the same request with both fields pre-stripped — and a
whitespace-only `user_sentence` is handled exactly like an empty one
everywhere, including the Strategy-B short-circuit. -/
theorem claim_C10_fields_stripped_before_use :
    ∀ (env : Env) (b : ReqBody),
      get_ai_feedback env b =
        get_ai_feedback env
          { b with user_sentence := some (pyStrip (b.user_sentence.getD "")),
                   sentence_prompt := some (pyStrip (b.sentence_prompt.getD "")) } ∧
      (pyStrip (b.user_sentence.getD "") = "" →
        get_ai_feedback env b =
          get_ai_feedback env { b with user_sentence := some "" }) := by
  intro env b
  constructor
  · unfold get_ai_feedback get_ai_feedback_body
    simp [pyStrip_idem]
  · intro h
    unfold get_ai_feedback get_ai_feedback_body
    simp [h, pyStrip_empty]

/-- Witness for C10 at a concrete whitespace-only sentence. -/
theorem claim_C10_witness :
    (get_ai_feedback envOk (ReqBody.mk none (some []) none (some "   ") (some " S ") none) =
      get_ai_feedback envOk
        { ReqBody.mk none (some []) none (some "   ") (some " S ") none with
            user_sentence := some (pyStrip
              ((ReqBody.mk none (some []) none (some "   ") (some " S ") none).user_sentence.getD "")),
            sentence_prompt := some (pyStrip
              ((ReqBody.mk none (some []) none (some "   ") (some " S ") none).sentence_prompt.getD "")) }) ∧
    pyStrip ((ReqBody.mk none (some []) none (some "   ") (some " S ") none).user_sentence.getD "") = "" ∧
    get_ai_feedback envOk (ReqBody.mk none (some []) none (some "   ") (some " S ") none) =
      get_ai_feedback envOk
        { ReqBody.mk none (some []) none (some "   ") (some " S ") none with
            user_sentence := some "" } :=
  ⟨(claim_C10_fields_stripped_before_use envOk
      (ReqBody.mk none (some []) none (some "   ") (some " S ") none)).1,
   rfl,
   (claim_C10_fields_stripped_before_use envOk
      (ReqBody.mk none (some []) none (some "   ") (some " S ") none)).2 rfl⟩

end WordGame
